import Mathlib

/-!
Verification development for the lingohow render API service.

Text is modelled as `List Char`; machine integers as `Nat`/`Int` with
explicit reduction `% 2 ^ 32` (resp. `% 2 ^ 64`) where the MD5 algorithm
overflows; fallible operations return `Except`.  Each Python function that
the claims touch is embedded as an executable Lean definition, translated
from the source file it lives in.
-/

/-- One Python text value. -/
abbrev Str := List Char

/-! ## Python string primitives -/

/-- Whitespace as stripped by Python `str.strip()` (ASCII whitespace plus
the common Unicode space code points NEL and NBSP). -/
def isPySpace (c : Char) : Bool :=
  c = ' ' || c = '\t' || c = '\n' || c = '\x0d' ||
  c = Char.ofNat 11 || c = Char.ofNat 12 || c = Char.ofNat 133 || c = Char.ofNat 160

/-- Drop leading characters satisfying `p`. -/
def dropLeading (p : Char → Bool) (l : Str) : Str := l.dropWhile p

/-- Drop trailing characters satisfying `p`. -/
def dropTrailing (p : Char → Bool) (l : Str) : Str := (l.reverse.dropWhile p).reverse

/-- Python `s.strip(chars)` generalised over the character predicate. -/
def pyStripWith (p : Char → Bool) (l : Str) : Str := dropTrailing p (dropLeading p l)

/-- Python `s.strip()` (default whitespace stripping). -/
def pyStrip (l : Str) : Str := pyStripWith isPySpace l

/-- Helper for `pySplit`: accumulates the current word reversed. -/
def pySplitAux : Str → Str → List Str
  | [], cur => if cur.isEmpty then [] else [cur.reverse]
  | c :: rest, cur =>
    if isPySpace c then
      if cur.isEmpty then pySplitAux rest [] else cur.reverse :: pySplitAux rest []
    else pySplitAux rest (c :: cur)

/-- Python `s.split()` with no argument: split on whitespace runs, no empty words. -/
def pySplit (l : Str) : List Str := pySplitAux l []

/-- Python `' '.join(s.split())`: collapse internal whitespace, trim the ends. -/
def collapseWs (l : Str) : Str := List.intercalate [' '] (pySplit l)

/-- Core of Python `s.replace(pat, rep)` for a non-empty pattern: scan left to
right, replacing non-overlapping occurrences.  The `fuel` argument only makes
the recursion structural; `fuel = s.length` always suffices because each step
consumes at least one character. -/
def replaceCoreF (pat rep : Str) : Nat → Str → Str
  | _, [] => []
  | 0, s => s
  | fuel + 1, c :: rest =>
    if pat.isPrefixOf (c :: rest) && !pat.isEmpty then
      rep ++ replaceCoreF pat rep fuel ((c :: rest).drop pat.length)
    else
      c :: replaceCoreF pat rep fuel rest

/-- `replaceCoreF` at its sufficient fuel. -/
def replaceCore (pat rep s : Str) : Str := replaceCoreF pat rep s.length s

/-- Python `s.replace(pat, rep)`, including the empty-pattern behaviour
(`"ab".replace("", "-") = "-a-b-"`). -/
def pyReplace (s pat rep : Str) : Str :=
  if pat.isEmpty then rep ++ s.foldr (fun c acc => c :: (rep ++ acc)) []
  else replaceCore pat rep s

/-- Python `str.isupper()`: at least one cased character, and every cased
character is uppercase (ASCII model). -/
def pyIsUpper (l : Str) : Bool :=
  l.any (fun c => c.isLower || c.isUpper) && l.all (fun c => !c.isLower)

/-! ## MD5 (RFC 1321), on byte lists, all words reduced `% 2 ^ 32` -/

/-- Reduce to a 32-bit word. -/
def w32 (x : Nat) : Nat := x % 4294967296

/-- 32-bit left rotation. -/
def rotl32 (x s : Nat) : Nat := (w32 (x <<< s)) ||| (x >>> (32 - s))

/-- 32-bit bitwise complement. -/
def notW (x : Nat) : Nat := x ^^^ 4294967295

/-- MD5 sine-derived round constants. -/
def md5K : List Nat :=
  [0xd76aa478, 0xe8c7b756, 0x242070db, 0xc1bdceee,
   0xf57c0faf, 0x4787c62a, 0xa8304613, 0xfd469501,
   0x698098d8, 0x8b44f7af, 0xffff5bb1, 0x895cd7be,
   0x6b901122, 0xfd987193, 0xa679438e, 0x49b40821,
   0xf61e2562, 0xc040b340, 0x265e5a51, 0xe9b6c7aa,
   0xd62f105d, 0x02441453, 0xd8a1e681, 0xe7d3fbc8,
   0x21e1cde6, 0xc33707d6, 0xf4d50d87, 0x455a14ed,
   0xa9e3e905, 0xfcefa3f8, 0x676f02d9, 0x8d2a4c8a,
   0xfffa3942, 0x8771f681, 0x6d9d6122, 0xfde5380c,
   0xa4beea44, 0x4bdecfa9, 0xf6bb4b60, 0xbebfbc70,
   0x289b7ec6, 0xeaa127fa, 0xd4ef3085, 0x04881d05,
   0xd9d4d039, 0xe6db99e5, 0x1fa27cf8, 0xc4ac5665,
   0xf4292244, 0x432aff97, 0xab9423a7, 0xfc93a039,
   0x655b59c3, 0x8f0ccc92, 0xffeff47d, 0x85845dd1,
   0x6fa87e4f, 0xfe2ce6e0, 0xa3014314, 0x4e0811a1,
   0xf7537e82, 0xbd3af235, 0x2ad7d2bb, 0xeb86d391]

/-- MD5 per-round left-rotation amounts. -/
def md5S : List Nat :=
  [7, 12, 17, 22, 7, 12, 17, 22, 7, 12, 17, 22, 7, 12, 17, 22,
   5, 9, 14, 20, 5, 9, 14, 20, 5, 9, 14, 20, 5, 9, 14, 20,
   4, 11, 16, 23, 4, 11, 16, 23, 4, 11, 16, 23, 4, 11, 16, 23,
   6, 10, 15, 21, 6, 10, 15, 21, 6, 10, 15, 21, 6, 10, 15, 21]

/-- MD5 round function selected by the step index. -/
def md5FF (i b c d : Nat) : Nat :=
  if i < 16 then (b &&& c) ||| (notW b &&& d)
  else if i < 32 then (d &&& b) ||| (notW d &&& c)
  else if i < 48 then b ^^^ c ^^^ d
  else c ^^^ (b ||| notW d)

/-- MD5 message-word index for the step index. -/
def md5GG (i : Nat) : Nat :=
  if i < 16 then i
  else if i < 32 then (5 * i + 1) % 16
  else if i < 48 then (3 * i + 5) % 16
  else (7 * i) % 16

/-- One MD5 step on the state `(a, b, c, d)`. -/
def md5Mix (m : List Nat) (st : Nat × Nat × Nat × Nat) (i : Nat) : Nat × Nat × Nat × Nat :=
  let a := st.1
  let b := st.2.1
  let c := st.2.2.1
  let d := st.2.2.2
  let f := w32 (md5FF i b c d + a + md5K.getD i 0 + m.getD (md5GG i) 0)
  (d, w32 (b + rotl32 f (md5S.getD i 0)), b, c)

/-- Process one 16-word block. -/
def md5Block (st : Nat × Nat × Nat × Nat) (m : List Nat) : Nat × Nat × Nat × Nat :=
  let r := (List.range 64).foldl (md5Mix m) st
  (w32 (st.1 + r.1), w32 (st.2.1 + r.2.1), w32 (st.2.2.1 + r.2.2.1), w32 (st.2.2.2 + r.2.2.2))

/-- Group a byte list into little-endian 32-bit words. -/
def toWords : List Nat → List Nat
  | b0 :: b1 :: b2 :: b3 :: rest =>
    (b0 + 256 * b1 + 65536 * b2 + 16777216 * b3) :: toWords rest
  | _ => []

/-- Helper for `toBlocks`: accumulates the current block reversed. -/
def toBlocksAux : List Nat → List Nat → List (List Nat)
  | [], cur => if cur.isEmpty then [] else [cur.reverse]
  | b :: rest, cur =>
    if cur.length = 63 then (b :: cur).reverse :: toBlocksAux rest []
    else toBlocksAux rest (b :: cur)

/-- Split a byte list into 64-byte blocks. -/
def toBlocks (l : List Nat) : List (List Nat) := toBlocksAux l []

/-- Little-endian bytes of a 64-bit length field. -/
def le8 (n : Nat) : List Nat := (List.range 8).map (fun i => (n >>> (8 * i)) % 256)

/-- Little-endian bytes of a 32-bit word. -/
def le4 (n : Nat) : List Nat := (List.range 4).map (fun i => (n >>> (8 * i)) % 256)

/-- MD5 padding: `0x80`, zeros to 56 mod 64, then the bit length `% 2 ^ 64`
little-endian. -/
def md5Pad (msg : List Nat) : List Nat :=
  msg ++ 128 :: List.replicate ((119 - msg.length % 64) % 64) 0 ++
    le8 ((msg.length * 8) % 18446744073709551616)

/-- MD5 digest (16 bytes) of a byte list. -/
def md5Bytes (msg : List Nat) : List Nat :=
  let st := (toBlocks (md5Pad msg)).foldl (fun s b => md5Block s (toWords b))
    (0x67452301, 0xefcdab89, 0x98badcfe, 0x10325476)
  le4 st.1 ++ le4 st.2.1 ++ le4 st.2.2.1 ++ le4 st.2.2.2

/-- Lowercase hexadecimal digit characters. -/
def hexDigits : Str := "0123456789abcdef".toList

/-- Two hex characters of one byte. -/
def byteHex (b : Nat) : Str := [hexDigits.getD (b / 16) '0', hexDigits.getD (b % 16) '0']

/-- `hashlib.md5(bytes).hexdigest()`. -/
def md5Hex (msg : List Nat) : Str := (md5Bytes msg).foldr (fun b acc => byteHex b ++ acc) []

/-- UTF-8 bytes of one character (Python `str.encode()` per code point). -/
def utf8Bytes (c : Char) : List Nat :=
  let n := c.toNat
  if n < 128 then [n]
  else if n < 2048 then [192 ||| (n >>> 6), 128 ||| (n &&& 63)]
  else if n < 65536 then
    [224 ||| (n >>> 12), 128 ||| ((n >>> 6) &&& 63), 128 ||| (n &&& 63)]
  else
    [240 ||| (n >>> 18), 128 ||| ((n >>> 12) &&& 63),
     128 ||| ((n >>> 6) &&& 63), 128 ||| (n &&& 63)]

/-- Python `text.encode()` (UTF-8). -/
def utf8Encode (s : Str) : List Nat := s.foldr (fun c acc => utf8Bytes c ++ acc) []

/-- `generate_sentence_hash` (check_and_generate_audio.py, lines 50-60):
`hashlib.md5(text.strip().encode()).hexdigest()[:8]`. -/
def generate_sentence_hash (text : Str) : Str :=
  (md5Hex (utf8Encode (pyStrip text))).take 8

/-! ## Phrase helpers (utils/phrase_helpers.py) -/

/-- The apostrophe character. -/
def apos : Char := Char.ofNat 39

/-- The Unicode horizontal-ellipsis character. -/
def hellip : Char := Char.ofNat 8230

/-- Replace every literal dot and ellipsis character by a space
(`phrase.replace('.', ' ').replace(…, ' ')`, a single-character mapping). -/
def dotsToSpaces (l : Str) : Str :=
  l.map (fun c => if c = '.' || c = hellip then ' ' else c)

/-- `format_phrase_for_tts` (utils/phrase_helpers.py, lines 14-66). -/
def format_phrase_for_tts (phrase : Str) : Str :=
  let p := collapseWs (dotsToSpaces phrase)
  if p.length > 1 && pyIsUpper p then
    List.intercalate [' '] (p.map (fun c => [c]))
  else
    let formatted := (pySplit p).map (fun word =>
      let cleanWord := word.filter Char.isAlpha
      if cleanWord.length > 1 && pyIsUpper cleanWord then
        pyReplace word cleanWord (List.intercalate [' '] (cleanWord.map (fun c => [c])))
      else word)
    pyStrip (List.intercalate [' '] formatted)

/-- Filename characters removed by `clean_phrase_filename`. -/
def invalidFileChars : Str := "<>:".toList ++ [Char.ofNat 34, '/', '\\', '|', '?', '*']

/-- `clean_phrase_filename` (utils/phrase_helpers.py, lines 69-112). -/
def clean_phrase_filename (phrase : Str) : Str :=
  let p := collapseWs (dotsToSpaces phrase)
  let cleaned := p.map (fun c => if c = ' ' then '_' else c)
  let cleaned := cleaned.filter (fun c => !(invalidFileChars.contains c))
  let cleaned := cleaned.filter (fun c => !(c = apos || c = Char.ofNat 34))
  let alphaOnly := p.filter Char.isAlpha
  let cleaned :=
    if !(alphaOnly.length > 1 && pyIsUpper alphaOnly) then cleaned.map Char.toLower
    else cleaned
  pyStripWith (fun c => c = '_') cleaned

/-! ## Sentence checking pipeline (check_and_generate_audio.py) -/

/-- One input/result record of the pipeline, carrying the dictionary keys the
embedded code reads (`.get` with its defaults: a missing key and the default
value are indistinguishable to the code). -/
structure SRec where
  en : Option Str := none
  sentence_hash : Option Str := none
  r2_exists : Bool := false
  cos_exists : Bool := false
  audio_exists : Bool := false
deriving DecidableEq

/-- `check_all_sentences` steps 2 (lines 245-288): per-sentence membership
check of the hash in the two bulk listings; returns
`(all_results, missing_audio_sentences)`.  Records whose stripped `en` is
empty are skipped (lines 250-253). -/
def check_all_sentences (r2_files cos_files : List Str) : List SRec → List SRec × List SRec
  | [] => ([], [])
  | s :: rest =>
    let en := pyStrip (s.en.getD [])
    if en.isEmpty then check_all_sentences r2_files cos_files rest
    else
      let h := generate_sentence_hash en
      let r2e := r2_files.contains h
      let cose := cos_files.contains h
      let res : SRec :=
        { s with sentence_hash := some h, r2_exists := r2e, cos_exists := cose,
                 audio_exists := r2e && cose }
      let p := check_all_sentences r2_files cos_files rest
      (res :: p.1, if r2e && cose then p.2 else res :: p.2)

/-- A `local_files` entry of `generate_and_upload_audio`. -/
structure LocalFile where
  en : Str
  sentence_hash : Str
  audio_path : Str
deriving DecidableEq

/-- `str(audio_dir / (hash + ".mp3"))` for `audio_dir = Path("audio/sentences")`. -/
def audioPath (h : Str) : Str := "audio/sentences/".toList ++ h ++ ".mp3".toList

/-- `generate_and_upload_audio` step 1 (lines 329-354): partition the batch
into already-staged local files and texts still needing generation.  `fileOk h`
models `audio_path.exists() and audio_path.stat().st_size > 0` for the path
determined by hash `h`.  Blank-`en` records are skipped (lines 334-337). -/
def split_local_files (fileOk : Str → Bool) : List SRec → List LocalFile × List Str
  | [] => ([], [])
  | s :: rest =>
    let en := pyStrip (s.en.getD [])
    if en.isEmpty then split_local_files fileOk rest
    else
      let h := generate_sentence_hash en
      let p := split_local_files fileOk rest
      if fileOk h then (⟨en, h, audioPath h⟩ :: p.1, p.2) else (p.1, en :: p.2)

/-- The dictionary `sentence_check_map = {s.get('sentence_hash'): s for s in
sentences}` (line 400), looked up at a string key: the last record with that
hash wins, records without the key sit under a different (`None`) key. -/
def sentence_check_map (sentences : List SRec) (h : Str) : Option SRec :=
  sentences.reverse.find? (fun s => s.sentence_hash == some h)

/-- A `file_data` dictionary handed to the uploaders. -/
structure FileData where
  file_path : Str
  object_key : Str
  sentence_hash : Str
deriving DecidableEq

/-- `generate_and_upload_audio` step 3 (lines 394-423): build
`(upload_files_r2, upload_files_cos)` from the staged files, enqueueing each
file only to the stores its check result reported missing
(`check_result.get('r2_exists', False)` / `.get('cos_exists', False)`).
`pathOk` models the `Path(audio_path).exists()` re-check of line 406. -/
def build_upload_lists (pathOk : Str → Bool) (sentences : List SRec) :
    List LocalFile → List FileData × List FileData
  | [] => ([], [])
  | f :: rest =>
    let p := build_upload_lists pathOk sentences rest
    if pathOk f.audio_path then
      let fd : FileData :=
        ⟨f.audio_path, "audio/sentences/".toList ++ f.sentence_hash ++ ".mp3".toList,
         f.sentence_hash⟩
      let cr := sentence_check_map sentences f.sentence_hash
      let r2e := (cr.map (fun s => s.r2_exists)).getD false
      let cose := (cr.map (fun s => s.cos_exists)).getD false
      ((if !r2e then fd :: p.1 else p.1), (if !cose then fd :: p.2 else p.2))
    else p

/-! ## Storage service (services/storage_service.py) -/

/-- R2 environment values (`os.getenv` results; `None` models an unset
variable). -/
structure R2Config where
  bucket_name : Option Str
  access_key_id : Option Str
  secret_access_key : Option Str
  endpoint_url : Option Str
deriving DecidableEq

/-- COS environment values. -/
structure CosConfig where
  secret_id : Option Str
  secret_key : Option Str
  bucket : Option Str
  region : Option Str
deriving DecidableEq

/-- Python truthiness of an optional string (`None` and `''` are falsy). -/
def truthyStr : Option Str → Bool
  | none => false
  | some s => !s.isEmpty

/-- `all(r2_config.values())` (storage_service.py line 207). -/
def r2Configured (c : R2Config) : Bool :=
  truthyStr c.bucket_name && truthyStr c.access_key_id &&
  truthyStr c.secret_access_key && truthyStr c.endpoint_url

/-- `all(cos_config.values())` (storage_service.py line 369). -/
def cosConfigured (c : CosConfig) : Bool :=
  truthyStr c.secret_id && truthyStr c.secret_key &&
  truthyStr c.bucket && truthyStr c.region

/-- The statistics dictionary returned by the batch uploaders. -/
structure UploadStats where
  error : Option Str := none
  total_uploads : Nat
  successful_uploads : Nat
  failed_uploads : Nat
  success_rate : ℚ
deriving DecidableEq

/-- One upload result dictionary (the success fields beyond `success` and
`object_key` are irrelevant to the claims and omitted). -/
structure UploadResult where
  success : Bool
  object_key : Str
  error : Option Str := none
deriving DecidableEq

/-- Error marker of the unconfigured-R2 short-circuit (line 210). -/
def r2IncompleteMsg : Str :=
  "R2 configuration incomplete - missing environment variables".toList

/-- Error marker of the unconfigured-COS short-circuit (line 372). -/
def cosIncompleteMsg : Str :=
  "COS configuration incomplete - missing environment variables".toList

/-- The all-zero statistics record (no `error` key). -/
def emptyStats : UploadStats :=
  { total_uploads := 0, successful_uploads := 0, failed_uploads := 0, success_rate := 0 }

/-- Shared result/statistics computation of both batch uploaders
(storage_service.py lines 254-291 and 313-321 resp. 408-429): `pathOk` models
`Path(file_path).exists()`, `outcome f = none` a successful remote put and
`outcome f = some e` a put failing with message `e`. -/
def runUploads (upload_files : List FileData) (pathOk : Str → Bool)
    (outcome : FileData → Option Str) : List UploadResult × UploadStats :=
  let results := upload_files.map (fun f =>
    if !pathOk f.file_path then
      { success := false, object_key := f.object_key, error := some "File not found".toList }
    else
      match outcome f with
      | none => { success := true, object_key := f.object_key }
      | some e => { success := false, object_key := f.object_key, error := some e })
  let total := results.length
  let successful := (results.filter (fun r => r.success)).length
  (results,
   { total_uploads := total, successful_uploads := successful,
     failed_uploads := total - successful,
     success_rate := if total > 0 then (successful : ℚ) / (total : ℚ) else 0 })

/-- `batch_upload_r2` (storage_service.py, lines 184-343). -/
def batch_upload_r2 (cfg : R2Config) (upload_files : List FileData)
    (pathOk : Str → Bool) (outcome : FileData → Option Str) :
    List UploadResult × UploadStats :=
  if !r2Configured cfg then ([], { emptyStats with error := some r2IncompleteMsg })
  else if upload_files.isEmpty then ([], emptyStats)
  else runUploads upload_files pathOk outcome

/-- `batch_upload_cos` (storage_service.py, lines 346-432). -/
def batch_upload_cos (cfg : CosConfig) (upload_files : List FileData)
    (pathOk : Str → Bool) (outcome : FileData → Option Str) :
    List UploadResult × UploadStats :=
  if !cosConfigured cfg then ([], { emptyStats with error := some cosIncompleteMsg })
  else if upload_files.isEmpty then ([], emptyStats)
  else runUploads upload_files pathOk outcome

/-- `upload_audio_files` (storage_service.py, lines 435-489): dispatch each
store from its own file list (`r2_files` / `cos_files`, falling back to
`upload_files`), returning `(cos_results, r2_results, cos_stats, r2_stats)`. -/
def upload_audio_files (r2cfg : R2Config) (coscfg : CosConfig)
    (upload_files : List FileData) (upload_to_cos upload_to_r2 : Bool)
    (r2_files cos_files : Option (List FileData))
    (pathOkR2 pathOkCos : Str → Bool)
    (outR2 outCos : FileData → Option Str) :
    List UploadResult × List UploadResult × UploadStats × UploadStats :=
  let cosPart :=
    if upload_to_cos then batch_upload_cos coscfg (cos_files.getD upload_files) pathOkCos outCos
    else ([], emptyStats)
  let r2Part :=
    if upload_to_r2 then batch_upload_r2 r2cfg (r2_files.getD upload_files) pathOkR2 outR2
    else ([], emptyStats)
  (cosPart.1, r2Part.1, cosPart.2, r2Part.2)

/-- `get_all_audio_files_from_r2` (check_and_generate_audio.py, lines 63-134):
with incomplete configuration the listing short-circuits to the empty set;
otherwise each listed key is stripped of the `audio/sentences/` prefix and the
`.mp3` suffix (`str.replace` of every occurrence) and empty names dropped. -/
def get_all_audio_files_from_r2 (cfg : R2Config) (keys : List Str) : List Str :=
  if !r2Configured cfg then []
  else keys.foldr (fun k acc =>
    let fn := pyReplace (pyReplace k "audio/sentences/".toList []) ".mp3".toList []
    if fn.isEmpty then acc else fn :: acc) []

/-- `_get_cos_files_sync` (check_and_generate_audio.py, lines 137-202): same
shape for the COS listing. -/
def get_cos_files_sync (cfg : CosConfig) (keys : List Str) : List Str :=
  if !cosConfigured cfg then []
  else keys.foldr (fun k acc =>
    let fn := pyReplace (pyReplace k "audio/sentences/".toList []) ".mp3".toList []
    if fn.isEmpty then acc else fn :: acc) []

/-! ## The statistics record of `generate_and_upload_audio` (lines 429-468) -/

/-- One record of the generator output `processed_sentences` (the generator
itself lives in the `utils.audio_generator` module outside this tree; only
the fields this file reads are modelled). -/
structure GenRec where
  en : Str := []
  sentence_hash : Str := []
  audio_path : Option Str := none
  audio_generated : Bool := false
  existed : Bool := false
deriving DecidableEq

/-- `newly_generated` (line 377). -/
def newlyGenerated (processed : List GenRec) : List GenRec :=
  processed.filter (fun p => p.audio_generated && !p.existed)

/-- The `performance` sub-dictionary of the final statistics. -/
structure PerfRec where
  audio_generation_time : ℚ
  upload_time : ℚ
  total_time : ℚ
  audio_gen_rate : ℚ
  upload_rate : ℚ
deriving DecidableEq

/-- The `stats` dictionary of `generate_and_upload_audio` (lines 453-468). -/
structure RunStats where
  total : Nat
  generated : Nat
  local_existed : Int
  uploaded_r2 : Nat
  uploaded_cos : Nat
  r2_stats : UploadStats
  cos_stats : UploadStats
  performance : PerfRec
deriving DecidableEq

/-- The NameError raised at line 466: the expression `len(upload_files)` is
evaluated although no variable `upload_files` is bound anywhere in
`generate_and_upload_audio` (only `upload_files_r2` and `upload_files_cos`
are; the `upload_files=[]` at line 434 is a keyword argument, not a binding). -/
def nameErrorUploadFiles : Str :=
  "NameError: name upload_files is not defined".toList

/-- The construction of `stats` (lines 453-468) with the variables in scope at
that point as inputs.  The `upload_rate` entry divides `len(upload_files)` by
`upload_time` when `upload_time > 0`; since `upload_files` is an unbound name
there, that branch raises `NameError`; the guarded `else` branch yields `0`. -/
def generate_and_upload_stats (sentences : List SRec) (need_generate : List Str)
    (newly_generated : List GenRec) (local_files : List LocalFile)
    (r2_stats cos_stats : UploadStats) (audio_gen_time upload_time : ℚ) :
    Except Str RunStats :=
  if 0 < upload_time then Except.error nameErrorUploadFiles
  else Except.ok
    { total := sentences.length
      generated := newly_generated.length
      local_existed := (local_files.length : Int) - (newly_generated.length : Int)
      uploaded_r2 := r2_stats.successful_uploads
      uploaded_cos := cos_stats.successful_uploads
      r2_stats := r2_stats
      cos_stats := cos_stats
      performance :=
        { audio_generation_time := audio_gen_time
          upload_time := upload_time
          total_time := audio_gen_time + upload_time
          audio_gen_rate :=
            if 0 < audio_gen_time then (need_generate.length : ℚ) / audio_gen_time else 0
          upload_rate := 0 } }

/-! ## Episode service (services/episode_service.py) -/

/-- Metadata mapping (opaque to all embedded operations). -/
abbrev EpMeta := List (Str × Str)

/-- A parsed episode JSON document; `created_at`, `updated_at` and `version`
are optional because the code reads them with `.get` defaults.  (Documents
written by the service always carry all fields.) -/
structure EpDoc (σ : Type) where
  episode_id : Int
  sentences : List σ
  metadata : EpMeta
  created_at : Option Str
  updated_at : Option Str
  version : Option Nat
deriving DecidableEq

/-- A persisted episode file: either it parses as JSON or it is malformed. -/
inductive StoredDoc (σ : Type) where
  | parsed (d : EpDoc σ)
  | malformed
deriving DecidableEq

/-- The storage directory contents, one optional file per episode id. -/
def EpStore (σ : Type) := Int → Option (StoredDoc σ)

/-- Write (or delete) one episode file. -/
def setEp {σ : Type} (st : EpStore σ) (i : Int) (v : Option (StoredDoc σ)) : EpStore σ :=
  fun j => if j = i then v else st j

/-- Decimal digits of a natural number. -/
def natStr (n : Nat) : Str := Nat.toDigits 10 n

/-- Python `str(int)`. -/
def intStr (i : Int) : Str := if i < 0 then '-' :: natStr (-i).toNat else natStr i.toNat

/-- `str(self._get_episode_path(episode_id))` for the default storage dir. -/
def epFilePath (i : Int) : Str := "data/episodes/EP".toList ++ intStr i ++ ".json".toList

/-- The dictionary returned by `save_episode` (lines 108-114). -/
structure SaveResult where
  episode_id : Int
  file_path : Str
  sentence_count : Nat
  version : Nat
  saved_at : Str
deriving DecidableEq

/-- Errors of the episode service (`EpisodeNotFoundError`,
`EpisodeServiceError` for invalid JSON, `IndexError`, `EpisodeLockError`). -/
inductive EpError where
  | notFound
  | invalidJson
  | indexOutOfRange
  | lockTimeout
deriving DecidableEq

/-- `EpisodeService.save_episode` (episode_service.py, lines 55-117), with
`now` standing for `datetime.utcnow().isoformat()`.  A prior parsed document
donates `created_at` (default: the fresh timestamp) and `version + 1`
(`existing_data.get("version", 0) + 1`); a malformed prior document is logged
and replaced by a fresh version-1 document (lines 97-98). -/
def save_episode {σ : Type} (now : Str) (st : EpStore σ) (episode_id : Int)
    (sentences : List σ) (metadata : Option EpMeta) : EpStore σ × SaveResult :=
  let base : EpDoc σ :=
    { episode_id := episode_id, sentences := sentences, metadata := metadata.getD [],
      created_at := some now, updated_at := some now, version := some 1 }
  let doc :=
    match st episode_id with
    | some (StoredDoc.parsed ex) =>
      { base with created_at := some (ex.created_at.getD now),
                  version := some (ex.version.getD 0 + 1) }
    | _ => base
  (setEp st episode_id (some (StoredDoc.parsed doc)),
   { episode_id := episode_id, file_path := epFilePath episode_id,
     sentence_count := sentences.length, version := doc.version.getD 0, saved_at := now })

/-- `EpisodeService.read_episode` (episode_service.py, lines 119-149). -/
def read_episode {σ : Type} (st : EpStore σ) (episode_id : Int) :
    Except EpError (EpDoc σ) :=
  match st episode_id with
  | none => Except.error EpError.notFound
  | some StoredDoc.malformed => Except.error EpError.invalidJson
  | some (StoredDoc.parsed d) => Except.ok d

/-- The dictionary returned by `update_sentence` (lines 224-229). -/
structure UpdateResult where
  episode_id : Int
  sentence_index : Int
  version : Nat
  updated_at : Str
deriving DecidableEq

/-- The document written back by `update_sentence` (lines 212-214). -/
def updDoc {σ : Type} (now : Str) (d : EpDoc σ) (sentence_index : Int) (x : σ) : EpDoc σ :=
  { d with sentences := d.sentences.set sentence_index.toNat x,
           updated_at := some now, version := some (d.version.getD 0 + 1) }

/-- `EpisodeService.update_sentence` (episode_service.py, lines 173-234). -/
def update_sentence {σ : Type} (now : Str) (st : EpStore σ) (episode_id : Int)
    (sentence_index : Int) (sentence_data : σ) :
    Except EpError (EpStore σ × UpdateResult) :=
  match st episode_id with
  | none => Except.error EpError.notFound
  | some StoredDoc.malformed => Except.error EpError.invalidJson
  | some (StoredDoc.parsed d) =>
    if sentence_index < 0 ∨ (d.sentences.length : Int) ≤ sentence_index then
      Except.error EpError.indexOutOfRange
    else
      let d2 := updDoc now d sentence_index sentence_data
      Except.ok (setEp st episode_id (some (StoredDoc.parsed d2)),
        { episode_id := episode_id, sentence_index := sentence_index,
          version := d.version.getD 0 + 1, updated_at := now })

/-! ## Helper lemmas -/

set_option maxRecDepth 20000 in
/-- A correct MD5 test vector (RFC 1321 test suite). -/
theorem md5Hex_abc_vector :
    md5Hex (utf8Encode "abc".toList) = "900150983cd24fb0d6963f7d28e17f72".toList := by
  decide

theorem dropTrailing_eq_rdropWhile (p : Char → Bool) (l : Str) :
    dropTrailing p l = List.rdropWhile p l := rfl

theorem dropWhile_eq_cons_head_not {p : Char → Bool} {l t : Str} {c : Char}
    (h : l.dropWhile p = c :: t) : p c = false := by
  induction l with
  | nil => simp at h
  | cons x xs ih =>
    rw [List.dropWhile_cons] at h
    by_cases hx : p x
    · rw [if_pos hx] at h
      exact ih h
    · rw [if_neg hx] at h
      cases h
      exact Bool.not_eq_true _ ▸ (by simpa using hx)

theorem rdropWhile_cons_shape (p : Char → Bool) (c : Char) (t : Str) :
    List.rdropWhile p (c :: t) = [] ∨ ∃ s, List.rdropWhile p (c :: t) = c :: s := by
  obtain ⟨u, hu⟩ := List.rdropWhile_prefix p (c :: t)
  cases h : List.rdropWhile p (c :: t) with
  | nil => exact Or.inl rfl
  | cons x s =>
    right
    rw [h, List.cons_append] at hu
    injection hu with h1 h2
    exact ⟨s, by rw [h1]⟩

/-- Leading characters of `dropTrailing p (dropLeading p l)` still fail `p`. -/
theorem dropLeading_dropTrailing_dropLeading (p : Char → Bool) (l : Str) :
    dropLeading p (dropTrailing p (dropLeading p l)) = dropTrailing p (dropLeading p l) := by
  rw [dropTrailing_eq_rdropWhile]
  unfold dropLeading
  cases h : l.dropWhile p with
  | nil => simp [List.rdropWhile]
  | cons c t =>
    have hc : p c = false := dropWhile_eq_cons_head_not h
    rcases rdropWhile_cons_shape p c t with h2 | ⟨s, h2⟩
    · simp [h2]
    · rw [h2, List.dropWhile_cons, hc]
      simp

theorem pyStripWith_idem (p : Char → Bool) (l : Str) :
    pyStripWith p (pyStripWith p l) = pyStripWith p l := by
  unfold pyStripWith
  rw [dropLeading_dropTrailing_dropLeading, dropTrailing_eq_rdropWhile,
    dropTrailing_eq_rdropWhile, List.rdropWhile_idempotent]

theorem pyStrip_idem (l : Str) : pyStrip (pyStrip l) = pyStrip l :=
  pyStripWith_idem isPySpace l

/-! ## Claim theorems -/

/-- C5: the sentence fingerprint is the first 8 hex characters of the MD5
digest of the trimmed text, and therefore `fingerprint(t) =
fingerprint(trim(t))`; as a pure function of the text it is identical across
repeated calls. -/
theorem generate_sentence_hash_md5_trim_stable (t : Str) :
    generate_sentence_hash t = (md5Hex (utf8Encode (pyStrip t))).take 8
    ∧ generate_sentence_hash (pyStrip t) = generate_sentence_hash t := by
  refine ⟨rfl, ?_⟩
  unfold generate_sentence_hash
  rw [pyStrip_idem]

set_option maxRecDepth 20000 in
/-- C6 (divergence exhibit): `clean_phrase_filename` maps the three phrases
`break the ice`, `S.P.F.` and `What's up?` to `break_the_ice`, `S_P_F` and
`whats_up`; on the second phrase the code produces `S_P_F`, not the `SPF`
promised by its own docstring and the spec. -/
theorem clean_phrase_filename_three_phrases :
    clean_phrase_filename "break the ice".toList = "break_the_ice".toList
    ∧ clean_phrase_filename "S.P.F.".toList = "S_P_F".toList
    ∧ clean_phrase_filename ("What".toList ++ [apos] ++ "s up?".toList) = "whats_up".toList := by
  decide

set_option maxRecDepth 20000 in
/-- C7 (divergence exhibit): `format_phrase_for_tts` maps `break the ice` and
`What's up?` to themselves, but maps `S.P.F.` to `S   P   F` (three spaces
between letters: the dots first become spaces, then the whole-phrase acronym
branch joins every character, the surviving spaces included, with a space),
not to the `S P F` promised by its own docstring and the spec. -/
theorem format_phrase_for_tts_three_phrases :
    format_phrase_for_tts "break the ice".toList = "break the ice".toList
    ∧ format_phrase_for_tts "S.P.F.".toList = "S   P   F".toList
    ∧ format_phrase_for_tts ("What".toList ++ [apos] ++ "s up?".toList) =
        "What".toList ++ [apos] ++ "s up?".toList := by
  decide

/-- A store whose episode-7 file is malformed. -/
def malformedStore : EpStore Nat := fun j => if j = 7 then some StoredDoc.malformed else none

/-- C4 counterexample: `save_episode` on an episode whose existing file is
malformed does not surface the integrity failure — it silently overwrites the
file with a fresh version-1 document and returns a normal success result. -/
theorem save_episode_overwrites_malformed :
    (save_episode "t0".toList malformedStore 7 [0] none).1 7 =
      some (StoredDoc.parsed
        { episode_id := 7, sentences := [0], metadata := [],
          created_at := some "t0".toList, updated_at := some "t0".toList,
          version := some 1 })
    ∧ (save_episode "t0".toList malformedStore 7 [0] none).2.version = 1 := by
  decide

/-- C4 amended: `read_episode` and `update_sentence` surface a malformed
persisted document as an integrity error and never overwrite it, but
`save_episode` does not: it logs a warning and replaces the malformed file
with a fresh version-1 document. -/
theorem malformed_document_handling {σ : Type} (st : EpStore σ) (i : Int)
    (h : st i = some StoredDoc.malformed) (now : Str) (ss : List σ)
    (md : Option EpMeta) (idx : Int) (x : σ) :
    read_episode st i = Except.error EpError.invalidJson
    ∧ update_sentence now st i idx x = Except.error EpError.invalidJson
    ∧ (save_episode now st i ss md).1 i =
        some (StoredDoc.parsed
          { episode_id := i, sentences := ss, metadata := md.getD [],
            created_at := some now, updated_at := some now, version := some 1 })
    ∧ (save_episode now st i ss md).2.version = 1 := by
  refine ⟨?_, ?_, ?_, ?_⟩ <;> simp [read_episode, update_sentence, save_episode, setEp, h]

/-- Witness for the amended C4 theorem at a concrete store. -/
theorem malformed_document_handling_witness :
    malformedStore 7 = some StoredDoc.malformed
    ∧ (read_episode malformedStore 7 = Except.error EpError.invalidJson
       ∧ update_sentence "t1".toList malformedStore 7 0 5 =
           Except.error EpError.invalidJson
       ∧ (save_episode "t1".toList malformedStore 7 [5] none).1 7 =
           some (StoredDoc.parsed
             { episode_id := 7, sentences := [5], metadata := [],
               created_at := some "t1".toList, updated_at := some "t1".toList,
               version := some 1 })
       ∧ (save_episode "t1".toList malformedStore 7 [5] none).2.version = 1) :=
  ⟨by decide, malformed_document_handling malformedStore 7 (by decide) "t1".toList [5] none 0 5⟩

/-- C1: the upload fan-out of `generate_and_upload_audio` enqueues a staged
file to a store only when the check record found for its fingerprint in
`sentence_check_map` reported that store missing: no `(fingerprint, store)`
pair whose check result marked the store present ever receives an upload. -/
theorem build_upload_lists_skip_present (pathOk : Str → Bool) (sentences : List SRec)
    (lfs : List LocalFile) :
    (∀ fd ∈ (build_upload_lists pathOk sentences lfs).1,
      ∀ s, sentence_check_map sentences fd.sentence_hash = some s → s.r2_exists = false)
    ∧ (∀ fd ∈ (build_upload_lists pathOk sentences lfs).2,
      ∀ s, sentence_check_map sentences fd.sentence_hash = some s → s.cos_exists = false) := by
  induction lfs with
  | nil => simp [build_upload_lists]
  | cons f rest ih =>
    obtain ⟨ih1, ih2⟩ := ih
    by_cases hpath : pathOk f.audio_path
    · constructor
      · intro fd hfd s hs
        by_cases hr2 :
            ((sentence_check_map sentences f.sentence_hash).map
              (fun t => t.r2_exists)).getD false
        · simp [build_upload_lists, hpath, hr2] at hfd
          exact ih1 fd hfd s hs
        · simp [build_upload_lists, hpath, hr2] at hfd
          rcases hfd with rfl | hfd
          · simp only [FileData.mk.injEq] at hs ⊢
            rw [hs] at hr2
            simpa using hr2
          · exact ih1 fd hfd s hs
      · intro fd hfd s hs
        by_cases hcos :
            ((sentence_check_map sentences f.sentence_hash).map
              (fun t => t.cos_exists)).getD false
        · simp [build_upload_lists, hpath, hcos] at hfd
          exact ih2 fd hfd s hs
        · simp [build_upload_lists, hpath, hcos] at hfd
          rcases hfd with rfl | hfd
          · simp only [FileData.mk.injEq] at hs ⊢
            rw [hs] at hcos
            simpa using hcos
          · exact ih2 fd hfd s hs
    · constructor
      · intro fd hfd s hs
        simp [build_upload_lists, hpath] at hfd
        exact ih1 fd hfd s hs
      · intro fd hfd s hs
        simp [build_upload_lists, hpath] at hfd
        exact ih2 fd hfd s hs

/-- Concrete inputs for the C1 witness: one sentence present in COS only. -/
def c1Sentences : List SRec :=
  [{ en := some "hi".toList, sentence_hash := some "aaaaaaaa".toList,
     r2_exists := false, cos_exists := true, audio_exists := false }]

/-- The staged file of the C1 witness. -/
def c1Locals : List LocalFile :=
  [⟨"hi".toList, "aaaaaaaa".toList, audioPath "aaaaaaaa".toList⟩]

/-- The file datum the C1 witness expects in the R2 upload list. -/
def c1Fd : FileData :=
  ⟨audioPath "aaaaaaaa".toList,
   "audio/sentences/".toList ++ "aaaaaaaa".toList ++ ".mp3".toList,
   "aaaaaaaa".toList⟩

/-- Witness for C1 at a concrete batch. -/
theorem build_upload_lists_skip_present_witness :
    c1Fd ∈ (build_upload_lists (fun _ => true) c1Sentences c1Locals).1
    ∧ (∀ s, sentence_check_map c1Sentences c1Fd.sentence_hash = some s →
        s.r2_exists = false) :=
  ⟨by decide,
   (build_upload_lists_skip_present (fun _ => true) c1Sentences c1Locals).1 c1Fd (by decide)⟩

/-- C2 (divergence exhibit): whenever the measured upload duration is
positive — which holds for every real run that reaches the statistics block —
the statistics construction of `generate_and_upload_audio` raises `NameError`
while computing `performance.upload_rate`, because line 466 reads the unbound
name `upload_files`; the statistics record is only produced in the guarded
`upload_time == 0` branch. -/
theorem generate_and_upload_stats_raises_name_error
    (sentences : List SRec) (need_generate : List Str) (newly : List GenRec)
    (lfs : List LocalFile) (r2s coss : UploadStats) (tg tu : ℚ) (h : 0 < tu) :
    generate_and_upload_stats sentences need_generate newly lfs r2s coss tg tu =
      Except.error nameErrorUploadFiles := by
  simp [generate_and_upload_stats, h]

/-- Witness for C2 at a concrete one-sentence batch with upload duration 1. -/
theorem generate_and_upload_stats_raises_name_error_witness :
    (0 : ℚ) < 1
    ∧ generate_and_upload_stats [{ en := some "hi".toList }] [] [] []
        emptyStats emptyStats 0 1 = Except.error nameErrorUploadFiles :=
  ⟨by norm_num,
   generate_and_upload_stats_raises_name_error [{ en := some "hi".toList }] [] [] []
     emptyStats emptyStats 0 1 (by norm_num)⟩

/-- First save of the C3 scenario: `save_episode(7, [s1, s2])` on an empty
store. -/
def epSave1 : EpStore Nat × SaveResult :=
  save_episode "t1".toList (fun _ => none) 7 [1, 2] none

/-- Second save of the C3 scenario: `save_episode(7, [s1, s2, s3])`. -/
def epSave2 : EpStore Nat × SaveResult :=
  save_episode "t2".toList epSave1.1 7 [1, 2, 3] none

/-- C3: `save_episode` preserves a parsed prior document's `created_at` and
bumps its version by one, initialises `version = 1` on a first save, and in
the concrete scenario the second of two saves of episode 7 yields version 2,
the first save's `created_at`, and the three new sentences. -/
theorem save_episode_version_increment {σ : Type} (now : Str) (st : EpStore σ)
    (i : Int) (ss : List σ) (md : Option EpMeta) :
    (∀ (ex : EpDoc σ) (v : Nat) (c : Str),
      st i = some (StoredDoc.parsed ex) → ex.version = some v → ex.created_at = some c →
      (save_episode now st i ss md).2.version = v + 1
      ∧ (save_episode now st i ss md).1 i =
          some (StoredDoc.parsed
            { episode_id := i, sentences := ss, metadata := md.getD [],
              created_at := some c, updated_at := some now, version := some (v + 1) }))
    ∧ (st i = none → (save_episode now st i ss md).2.version = 1)
    ∧ (epSave2.2.version = 2
       ∧ epSave2.1 7 =
           some (StoredDoc.parsed
             { episode_id := 7, sentences := [1, 2, 3], metadata := [],
               created_at := some "t1".toList, updated_at := some "t2".toList,
               version := some 2 })) := by
  refine ⟨?_, ?_, ?_, ?_⟩
  · intro ex v c hex hv hc
    constructor
    · simp [save_episode, hex, hv]
    · simp [save_episode, setEp, hex, hv, hc]
  · intro h
    simp [save_episode, h]
  · decide
  · decide

/-- The prior document of the C3 witness (written by the scenario's first
save). -/
def c3Prior : EpDoc Nat :=
  { episode_id := 7, sentences := [1, 2], metadata := [],
    created_at := some "t1".toList, updated_at := some "t1".toList, version := some 1 }

/-- Witness for C3: both hypothesis branches discharged at concrete stores. -/
theorem save_episode_version_increment_witness :
    (epSave1.1 7 = some (StoredDoc.parsed c3Prior)
     ∧ c3Prior.version = some 1
     ∧ c3Prior.created_at = some "t1".toList
     ∧ ((save_episode "t2".toList epSave1.1 7 [9] none).2.version = 1 + 1
        ∧ (save_episode "t2".toList epSave1.1 7 [9] none).1 7 =
            some (StoredDoc.parsed
              { episode_id := 7, sentences := [9], metadata := [],
                created_at := some "t1".toList, updated_at := some "t2".toList,
                version := some (1 + 1) })))
    ∧ ((fun _ => none : EpStore Nat) 3 = none
       ∧ (save_episode "t0".toList (fun _ => none) 3 [4] none).2.version = 1) :=
  ⟨⟨by decide, by decide, by decide,
    (save_episode_version_increment "t2".toList epSave1.1 7 [9] none).1 c3Prior 1
      "t1".toList (by decide) (by decide) (by decide)⟩,
   ⟨rfl, (save_episode_version_increment "t0".toList (fun _ => none) 3 [4] none).2.1 rfl⟩⟩

/-- An R2 environment with every value unset. -/
def noR2 : R2Config := ⟨none, none, none, none⟩

/-- A COS environment with every value unset. -/
def noCos : CosConfig := ⟨none, none, none, none⟩

/-- C8: with an incomplete store configuration, the bulk listing for that
store returns the empty set, the batch upload short-circuits to an empty
result list plus a statistics record carrying the explicit
configuration-incomplete marker and all-zero counts, and the other store's
sub-pipeline of `upload_audio_files` is unaffected (its components do not
depend on the incomplete store's configuration); everything returns normally
rather than raising. -/
theorem store_config_incomplete_degrades :
    (∀ cfg : R2Config, r2Configured cfg = false →
      (∀ keys, get_all_audio_files_from_r2 cfg keys = [])
      ∧ (∀ files pathOk outcome,
          batch_upload_r2 cfg files pathOk outcome =
            ([], { error := some r2IncompleteMsg, total_uploads := 0,
                   successful_uploads := 0, failed_uploads := 0, success_rate := 0 }))
      ∧ (∀ (cfg2 : R2Config) (coscfg : CosConfig) ufs u2c u2r r2fs cosfs pR pC oR oC,
          (upload_audio_files cfg coscfg ufs u2c u2r r2fs cosfs pR pC oR oC).1 =
            (upload_audio_files cfg2 coscfg ufs u2c u2r r2fs cosfs pR pC oR oC).1
          ∧ (upload_audio_files cfg coscfg ufs u2c u2r r2fs cosfs pR pC oR oC).2.2.1 =
              (upload_audio_files cfg2 coscfg ufs u2c u2r r2fs cosfs pR pC oR oC).2.2.1))
    ∧ (∀ ccfg : CosConfig, cosConfigured ccfg = false →
      (∀ keys, get_cos_files_sync ccfg keys = [])
      ∧ (∀ files pathOk outcome,
          batch_upload_cos ccfg files pathOk outcome =
            ([], { error := some cosIncompleteMsg, total_uploads := 0,
                   successful_uploads := 0, failed_uploads := 0, success_rate := 0 }))
      ∧ (∀ (ccfg2 : CosConfig) (r2cfg : R2Config) ufs u2c u2r r2fs cosfs pR pC oR oC,
          (upload_audio_files r2cfg ccfg ufs u2c u2r r2fs cosfs pR pC oR oC).2.1 =
            (upload_audio_files r2cfg ccfg2 ufs u2c u2r r2fs cosfs pR pC oR oC).2.1
          ∧ (upload_audio_files r2cfg ccfg ufs u2c u2r r2fs cosfs pR pC oR oC).2.2.2 =
              (upload_audio_files r2cfg ccfg2 ufs u2c u2r r2fs cosfs pR pC oR oC).2.2.2)) := by
  constructor
  · intro cfg h
    refine ⟨?_, ?_, ?_⟩
    · intro keys
      simp [get_all_audio_files_from_r2, h]
    · intro files pathOk outcome
      simp [batch_upload_r2, h, emptyStats]
    · intro cfg2 coscfg ufs u2c u2r r2fs cosfs pR pC oR oC
      exact ⟨rfl, rfl⟩
  · intro ccfg h
    refine ⟨?_, ?_, ?_⟩
    · intro keys
      simp [get_cos_files_sync, h]
    · intro files pathOk outcome
      simp [batch_upload_cos, h, emptyStats]
    · intro ccfg2 r2cfg ufs u2c u2r r2fs cosfs pR pC oR oC
      exact ⟨rfl, rfl⟩

/-- Witness for C8 at fully-unset environments. -/
theorem store_config_incomplete_degrades_witness :
    r2Configured noR2 = false
    ∧ get_all_audio_files_from_r2 noR2 ["audio/sentences/x.mp3".toList] = []
    ∧ batch_upload_r2 noR2 [] (fun _ => true) (fun _ => none) =
        ([], { error := some r2IncompleteMsg, total_uploads := 0,
               successful_uploads := 0, failed_uploads := 0, success_rate := 0 })
    ∧ cosConfigured noCos = false
    ∧ batch_upload_cos noCos [] (fun _ => true) (fun _ => none) =
        ([], { error := some cosIncompleteMsg, total_uploads := 0,
               successful_uploads := 0, failed_uploads := 0, success_rate := 0 }) :=
  ⟨by decide,
   (store_config_incomplete_degrades.1 noR2 (by decide)).1 ["audio/sentences/x.mp3".toList],
   (store_config_incomplete_degrades.1 noR2 (by decide)).2.1 [] (fun _ => true) (fun _ => none),
   by decide,
   (store_config_incomplete_degrades.2 noCos (by decide)).2.1 [] (fun _ => true) (fun _ => none)⟩

/-- C9: `update_sentence` at an in-range index on a parsed document succeeds,
keeps the number of sentences unchanged, leaves every sentence other than the
indexed one untouched, replaces the indexed one, and increments the version by
exactly one. -/
theorem update_sentence_frame {σ : Type} (now : Str) (st : EpStore σ) (i idx : Int)
    (x : σ) (d : EpDoc σ) (hst : st i = some (StoredDoc.parsed d))
    (h0 : 0 ≤ idx) (hlt : idx < (d.sentences.length : Int)) :
    update_sentence now st i idx x =
      Except.ok (setEp st i (some (StoredDoc.parsed (updDoc now d idx x))),
        { episode_id := i, sentence_index := idx,
          version := d.version.getD 0 + 1, updated_at := now })
    ∧ (updDoc now d idx x).sentences.length = d.sentences.length
    ∧ (∀ j : Nat, j ≠ idx.toNat →
        ((updDoc now d idx x).sentences)[j]? = (d.sentences)[j]?)
    ∧ ((updDoc now d idx x).sentences)[idx.toNat]? = some x
    ∧ (updDoc now d idx x).version = some (d.version.getD 0 + 1) := by
  have hcond : ¬(idx < 0 ∨ (d.sentences.length : Int) ≤ idx) := by omega
  have hnat : idx.toNat < d.sentences.length := by omega
  refine ⟨?_, ?_, ?_, ?_, ?_⟩
  · simp [update_sentence, hst, hcond]
  · simp [updDoc]
  · intro j hj
    simp only [updDoc]
    exact List.getElem?_set_ne (Ne.symm hj)
  · simp only [updDoc]
    exact List.getElem?_set_eq_of_lt x hnat
  · rfl

/-- The parsed document of the C9 witness. -/
def frameDoc : EpDoc Nat :=
  { episode_id := 5, sentences := [10, 20, 30], metadata := [],
    created_at := some "c0".toList, updated_at := some "c0".toList, version := some 3 }

/-- The store of the C9 witness. -/
def frameStore : EpStore Nat :=
  fun j => if j = 5 then some (StoredDoc.parsed frameDoc) else none

/-- Witness for C9 at a concrete three-sentence document and index 1. -/
theorem update_sentence_frame_witness :
    frameStore 5 = some (StoredDoc.parsed frameDoc)
    ∧ (0 : Int) ≤ 1
    ∧ (1 : Int) < (frameDoc.sentences.length : Int)
    ∧ (update_sentence "u1".toList frameStore 5 1 99 =
        Except.ok (setEp frameStore 5
            (some (StoredDoc.parsed (updDoc "u1".toList frameDoc 1 99))),
          { episode_id := 5, sentence_index := 1,
            version := frameDoc.version.getD 0 + 1, updated_at := "u1".toList })
       ∧ (updDoc "u1".toList frameDoc 1 99).sentences.length = frameDoc.sentences.length
       ∧ (∀ j : Nat, j ≠ (1 : Int).toNat →
           ((updDoc "u1".toList frameDoc 1 99).sentences)[j]? = (frameDoc.sentences)[j]?)
       ∧ ((updDoc "u1".toList frameDoc 1 99).sentences)[(1 : Int).toNat]? = some 99
       ∧ (updDoc "u1".toList frameDoc 1 99).version =
           some (frameDoc.version.getD 0 + 1)) :=
  ⟨by decide, by decide, by decide,
   update_sentence_frame "u1".toList frameStore 5 1 99 frameDoc
     (by decide) (by decide) (by decide)⟩

/-- All records surviving into the check results have non-blank stripped
text. -/
theorem check_all_results_nonblank (r2f cosf : List Str) (l : List SRec) :
    (∀ r ∈ (check_all_sentences r2f cosf l).1, pyStrip (r.en.getD []) ≠ [])
    ∧ (∀ r ∈ (check_all_sentences r2f cosf l).2, pyStrip (r.en.getD []) ≠ []) := by
  induction l with
  | nil => simp [check_all_sentences]
  | cons s rest ih =>
    obtain ⟨ih1, ih2⟩ := ih
    by_cases hb : (pyStrip (s.en.getD [])).isEmpty
    · constructor
      · intro r hr
        simp [check_all_sentences, hb] at hr
        exact ih1 r hr
      · intro r hr
        simp [check_all_sentences, hb] at hr
        exact ih2 r hr
    · have hne : pyStrip (s.en.getD []) ≠ [] := by simpa using hb
      constructor
      · intro r hr
        simp [check_all_sentences, hb] at hr
        rcases hr with rfl | hr
        · simpa using hne
        · exact ih1 r hr
      · intro r hr
        by_cases hsk : generate_sentence_hash (pyStrip (s.en.getD [])) ∈ r2f ∧
            generate_sentence_hash (pyStrip (s.en.getD [])) ∈ cosf
        · simp [check_all_sentences, hb, hsk] at hr
          exact ih2 r hr
        · simp [check_all_sentences, hb, hsk] at hr
          rcases hr with rfl | hr
          · simpa using hne
          · exact ih2 r hr

/-- C10 (implicit): a record whose `en` text is absent, empty or
whitespace-only is silently dropped at the head of the pipeline: it changes
neither `check_all_sentences`' results nor the local staging partition of
`generate_and_upload_audio`, and every record that does appear in the check
report has non-blank stripped text. -/
theorem blank_en_records_dropped (r2f cosf : List Str) (fileOk : Str → Bool)
    (s : SRec) (rest : List SRec) (h : pyStrip (s.en.getD []) = []) :
    check_all_sentences r2f cosf (s :: rest) = check_all_sentences r2f cosf rest
    ∧ split_local_files fileOk (s :: rest) = split_local_files fileOk rest
    ∧ (∀ r ∈ (check_all_sentences r2f cosf (s :: rest)).1, pyStrip (r.en.getD []) ≠ [])
    ∧ (∀ r ∈ (check_all_sentences r2f cosf (s :: rest)).2, pyStrip (r.en.getD []) ≠ []) := by
  have hb : (pyStrip (s.en.getD [])).isEmpty = true := by simp [h]
  refine ⟨?_, ?_, ?_, ?_⟩
  · simp [check_all_sentences, hb]
  · simp [split_local_files, hb]
  · exact (check_all_results_nonblank r2f cosf (s :: rest)).1
  · exact (check_all_results_nonblank r2f cosf (s :: rest)).2

/-- The blank-text record of the C10 witness. -/
def blankRec : SRec := { en := some "   ".toList }

/-- Witness for C10 at a concrete whitespace-only record. -/
theorem blank_en_records_dropped_witness :
    pyStrip (blankRec.en.getD []) = []
    ∧ check_all_sentences [] [] [blankRec] = check_all_sentences [] [] []
    ∧ split_local_files (fun _ => false) [blankRec] = split_local_files (fun _ => false) [] :=
  ⟨by decide,
   (blank_en_records_dropped [] [] (fun _ => false) blankRec [] (by decide)).1,
   (blank_en_records_dropped [] [] (fun _ => false) blankRec [] (by decide)).2.1⟩
